import Mathlib

/-
  Verification development for `sentence_splitter.py`, a command-line utility
  that splits one-document-per-line input into one sentence per line, with a
  blank line after each document's sentences.

  Shallow embedding conventions:
  * Python strings are `List Char` (`Str`).
  * The filesystem is a partial map from paths to file contents, where a text
    file's content is its list of lines (`FS`).
  * The external spaCy pipeline `nlp.pipe` is an abstract, order-preserving
    per-document segmentation function `pipe : Str → List Str` mapping a
    document line to the texts of its sentences (`doc.sents`); spaCy documents
    that `pipe` yields one `Doc` per input text, in input order, for any
    `batch_size` and `n_process`, so those two settings do not enter the
    per-document function.
  * Fallible steps return `Except`/`Option`; the side effects that matter to
    the claims (file open/close events, lines read) are made explicit.
-/

abbrev Str : Type := List Char

def strLit (s : String) : Str := s.data

/-- The whitespace characters stripped by Python's `str.strip()`
(ASCII whitespace, the C1 separators, and the Unicode space characters). -/
def isPySpace (c : Char) : Bool :=
  c = ' ' || c = '\t' || c = '\n' || c = '\x0d' || c = '\x0b' || c = '\x0c' ||
  c = '\x1c' || c = '\x1d' || c = '\x1e' || c = '\x1f' || c = '\x85' ||
  c = '\u00A0' || c = '\u1680' || ('\u2000' ≤ c && c ≤ '\u200A') ||
  c = '\u2028' || c = '\u2029' || c = '\u202F' || c = '\u205F' || c = '\u3000'

/-- Python `s.strip()`: remove leading and trailing whitespace. -/
def pyStrip (s : Str) : Str :=
  ((s.dropWhile isPySpace).reverse.dropWhile isPySpace).reverse

/-- The inner loop of `main` over one document result: the printed sentence
lines.  `for sent in doc.sents: if sentence_text := sent.text.strip():
print(sentence_text)` keeps exactly the sentences whose stripped text is
non-empty, printing the stripped text. -/
def keptLines (sents : List Str) : List Str :=
  sents.filterMap fun s =>
    let sentence_text := pyStrip s
    if sentence_text = [] then none else some sentence_text

/-- The block of output lines `main` prints for one document: the kept
sentence lines followed by the `print()` blank line (represented by `[]`). -/
def docBlock (sents : List Str) : List Str :=
  keptLines sents ++ [[]]

/-- The whole standard-output line sequence of `main`'s printing loop, given
the segmentation function and the input lines (one document per line). -/
def mainOutput (pipe : Str → List Str) (docs : List Str) : List Str :=
  docs.flatMap fun d => docBlock (pipe d)

/-- `main`'s printing loop with the `--buffer-size` and `--n-process`
settings it passes to `nlp.pipe`.  spaCy's `pipe` yields one document result
per input line in input order for every `batch_size` and `n_process`, so the
printed lines do not depend on them. -/
def mainRunOutput (pipe : Str → List Str) (buffer_size : Option Int)
    (n_process : Int) (docs : List Str) : List Str :=
  mainOutput pipe docs

example : mainOutput (fun d => [d]) [strLit " hi "] = [strLit "hi", []] := by
  decide

/-- The filesystem: a path is mapped to the list of lines of the file it
names, or to `none` when opening it raises `IOError`. -/
abbrev FS : Type := Str → Option (List Str)

/-- The token for "use standard input" in the `path` argument. -/
def stdinToken : Str := strLit "-"

/-! ### `get_file_line_count` -/

/-- `sum(1 for _ in file)`: one is added per line read from the handle. -/
def sumOnes (lines : List Str) : Nat :=
  (lines.map fun _ => 1).sum

/-- A read handle on an open text file: its content and the read position.
`with open(path) as file` yields a fresh handle at position 0. -/
structure Handle where
  content : List Str
  pos : Nat
deriving DecidableEq

/-- Iterating a handle to exhaustion, adding one per line read
(`sum(1 for _ in file)`): the count obtained and the handle left at
end-of-file. -/
def readAllCount (h : Handle) : Nat × Handle :=
  (sumOnes (h.content.drop h.pos), { h with pos := h.content.length })

/-- `get_file_line_count(path, **kwargs)`.  The `others` argument carries the
handles owned by the rest of the program (in `main`, the separately opened
processing stream); the function opens its own fresh handle, so it returns
them untouched.  Result: `.ok none` for `"-"`, `.ok (some n)` for a readable
file of `n` lines, `.error ()` when `open` raises. -/
def get_file_line_count (fs : FS) (path : Str) (others : List Handle) :
    Except Unit (Option Nat) × List Handle :=
  if path = stdinToken then
    (.ok none, others)
  else
    match fs path with
    | none => (.error (), others)
    | some lines =>
      let file : Handle := { content := lines, pos := 0 }
      let counted := readAllCount file
      (.ok (some counted.1), others)

/-! ### `smart_open` -/

/-- The two process-owned standard streams `smart_open` can yield. -/
inductive StdStream where
  | stdin
  | stdout
deriving DecidableEq

/-- What `smart_open` yields to the `with` body. -/
inductive OpenedStream where
  | std (s : StdStream)
  | fileHandle (path : Str)
deriving DecidableEq

/-- How consuming the yielded stream ends: the body completes normally, or it
raises an exception that is thrown into the generator at the `yield`. -/
inductive Outcome where
  | normal
  | raised
deriving DecidableEq

/-- Open/close events on named files. -/
inductive FileEvent where
  | openF (path : Str)
  | closeF (path : Str)
deriving DecidableEq

/-- The stream `smart_open` picks for path `"-"`:
`sys.stdin if mode is None or mode == "" or "r" in mode else sys.stdout`. -/
def smartOpenStdStream (mode : Option Str) : StdStream :=
  match mode with
  | none => .stdin
  | some m => if m = [] || 'r' ∈ m then .stdin else .stdout

/-- The stream `smart_open(path, mode)` yields (default mode `"r"`), or
`none` when `open(path, mode)` raises before the `yield`. -/
def smart_open_stream (fs : FS) (path : Str) (mode : Option Str) :
    Option OpenedStream :=
  if path = stdinToken then
    some (.std (smartOpenStdStream mode))
  else
    match fs path with
    | none => none
    | some _ => some (.fileHandle path)

/-- The file events of one `with smart_open(path, mode) as file:` execution
whose body ends with `outcome`.  The `finally` clause runs on both outcomes
and calls `file.close()` exactly when `path != "-"`. -/
def smart_open_events (fs : FS) (path : Str) (outcome : Outcome) :
    List FileEvent :=
  if path = stdinToken then
    match outcome with
    | .normal => []
    | .raised => []
  else
    match fs path with
    | none => []
    | some _ =>
      match outcome with
      | .normal => [.openF path, .closeF path]
      | .raised => [.openF path, .closeF path]

/-! ### Argument parsing: the `--use-gpu` choices -/

/-- `choices=["no", "prefer", "require"]` in `parse_args`. -/
def use_gpu_choices : List Str :=
  [strLit "no", strLit "prefer", strLit "require"]

/-- argparse's `choices` check for `--use-gpu`: a value outside the list
makes the parser print a usage message and exit with status 2, before `main`
touches any input. -/
def check_use_gpu_choice (value : Str) : Except Unit Str :=
  if value ∈ use_gpu_choices then .ok value else .error ()

/-! ### GPU resolution and the effective process count -/

/-- The errors `main`'s use-gpu dispatch can raise. -/
inductive GpuErr where
  | requireGpuFailed
  | valueErr
deriving DecidableEq

/-- The `if args.use_gpu == ...` chain in `main`, over the raw argument
string and the availability of a GPU: `spacy.prefer_gpu()` returns whether a
GPU was activated, `spacy.require_gpu()` returns `True` or raises when no
GPU is available, and the final `else` raises
`ValueError(f"Unknown value for --use-gpu: ...")`. -/
def resolve_use_gpu (use_gpu : Str) (gpuAvailable : Bool) :
    Except GpuErr Bool :=
  if use_gpu = strLit "no" then .ok false
  else if use_gpu = strLit "prefer" then .ok gpuAvailable
  else if use_gpu = strLit "require" then
    if gpuAvailable then .ok true else .error .requireGpuFailed
  else .error .valueErr

/-- `n_process = (1 if use_gpu else multiprocessing.cpu_count()) if
args.n_process == -1 else args.n_process`. -/
def effective_n_process (n_process : Int) (use_gpu : Bool)
    (cpu_count : Nat) : Int :=
  if n_process = -1 then (if use_gpu then 1 else (cpu_count : Int))
  else n_process

/-! ### The whole program -/

/-- The lines `smart_open` lets `main`'s loop iterate over: the stdin lines
for `"-"`, the named file's lines otherwise (or `none` when `open` raises). -/
def inputLinesFor (fs : FS) (stdinLines : List Str) (path : Str) :
    Option (List Str) :=
  if path = stdinToken then some stdinLines else fs path

/-- How a run of `main` ends, in the order the steps occur in the code. -/
inductive ProgResult where
  /-- argparse rejected an argument: usage message and `SystemExit(code)`. -/
  | usageExit (code : Nat)
  /-- `open` raised in `get_file_line_count` or `smart_open`. -/
  | ioError
  /-- `spacy.require_gpu()` raised: GPU required but unavailable. -/
  | gpuError
  /-- the unreachable `raise ValueError(f"Unknown value for --use-gpu: ...")`. -/
  | valueError
  /-- full completion: the printed lines, the progress total shown by `tqdm`
  (`none` = unknown), and the process count handed to `nlp.pipe`. -/
  | ok (output : List Str) (total : Option Nat) (n_process : Int)
deriving DecidableEq

/-- A run of the program: the result together with the number of input lines
read from the file or from standard input (the counting pass of
`get_file_line_count` included).  Steps in source order: `parse_args`, then
`get_file_line_count`, then the GPU dispatch, then `n_process`, then the
`smart_open` loop. -/
def program_run (pipe : Str → List Str) (fs : FS) (stdinLines : List Str)
    (path : Str) (use_gpu : Str) (gpuAvailable : Bool) (cpu_count : Nat)
    (buffer_size : Option Int) (n_process : Int) : ProgResult × Nat :=
  match check_use_gpu_choice use_gpu with
  | .error _ => (.usageExit 2, 0)
  | .ok use_gpu =>
    match get_file_line_count fs path [] with
    | (.error _, _) => (.ioError, 0)
    | (.ok line_count, _) =>
      let countReads := line_count.getD 0
      match resolve_use_gpu use_gpu gpuAvailable with
      | .error .valueErr => (.valueError, countReads)
      | .error .requireGpuFailed => (.gpuError, countReads)
      | .ok use_gpu =>
        let np := effective_n_process n_process use_gpu cpu_count
        match inputLinesFor fs stdinLines path with
        | none => (.ioError, countReads)
        | some docs =>
          (.ok (mainRunOutput pipe buffer_size np docs) line_count np,
            countReads + docs.length)

/-! ### `ArgumentParserWithDefaults` -/

/-- A Python value that can appear as an argparse `default`.  Container
elements are modelled by their rendered reprs, which is all `str()` and
emptiness need. -/
inductive PyVal where
  | pynone
  | pystr (s : Str)
  | pyint (n : Int)
  | pybool (b : Bool)
  | pylist (elems : List Str)
  | pytuple (elems : List Str)
  | pyset (elems : List Str)
deriving DecidableEq

/-- `_action_defaults_to_ignore = {"help", "store_true", "store_false",
"store_const"}`. -/
def action_defaults_to_ignore : List Str :=
  [strLit "help", strLit "store_true", strLit "store_false",
    strLit "store_const"]

/-- `_is_empty_default`: `None` is empty; a `str`, `list`, `tuple` or `set`
is empty when falsy; everything else is non-empty. -/
def _is_empty_default (default : PyVal) : Bool :=
  match default with
  | .pynone => true
  | .pystr s => s.isEmpty
  | .pylist l => l.isEmpty
  | .pytuple l => l.isEmpty
  | .pyset l => l.isEmpty
  | .pyint _ => false
  | .pybool _ => false

/-- Python `", ".join` of already-rendered elements. -/
def joinCommaSep : List Str → Str
  | [] => []
  | [x] => x
  | x :: xs => x ++ strLit ", " ++ joinCommaSep xs

/-- `str(default)` as interpolated by `f"... (default = {default})"`. -/
def pyStrOfVal (v : PyVal) : Str :=
  match v with
  | .pynone => strLit "None"
  | .pystr s => s
  | .pyint n => (toString n).data
  | .pybool b => if b then strLit "True" else strLit "False"
  | .pylist l => strLit "[" ++ joinCommaSep l ++ strLit "]"
  | .pytuple l => strLit "(" ++ joinCommaSep l ++ strLit ")"
  | .pyset l => strLit "\x7b" ++ joinCommaSep l ++ strLit "\x7d"

/-- `kwargs.get("action") not in self._action_defaults_to_ignore`: an absent
action (`None`) is not in the set of strings. -/
def action_not_ignored (action : Option Str) : Bool :=
  match action with
  | none => true
  | some a => decide (a ∉ action_defaults_to_ignore)

/-- The help string `ArgumentParserWithDefaults.add_argument` passes on to
`argparse`, from the `action`, `default` and `help` keyword arguments
(`kwargs.get("help", "")` defaults the description to `""`). -/
def add_argument_help (action : Option Str) (default : PyVal)
    (help? : Option Str) : Str :=
  let description := help?.getD []
  if action_not_ignored action && !(_is_empty_default default) then
    description ++ strLit " (default = " ++ pyStrOfVal default ++ strLit ")"
  else description

/-- The part of `main` after device resolution, restricted to what reaches
standard output and the progress display: the line count pass, then the
`smart_open` loop; `none` when `open` raises. -/
def mainRun (pipe : Str → List Str) (fs : FS) (stdinLines : List Str)
    (path : Str) (buffer_size : Option Int) (n_process : Int) :
    Option (List Str × Option Nat) :=
  match (get_file_line_count fs path []).1 with
  | .error _ => none
  | .ok line_count =>
    match inputLinesFor fs stdinLines path with
    | none => none
    | some docs =>
      some (mainRunOutput pipe buffer_size n_process docs, line_count)

/-! ## Helper lemmas -/

instance {ε α : Type} [DecidableEq ε] [DecidableEq α] :
    DecidableEq (Except ε α) := fun
  | .ok a, .ok b => decidable_of_iff (a = b) (by simp)
  | .ok _, .error _ => .isFalse (by simp)
  | .error _, .ok _ => .isFalse (by simp)
  | .error a, .error b => decidable_of_iff (a = b) (by simp)

lemma mem_keptLines {sents : List Str} {l : Str} :
    l ∈ keptLines sents ↔ ∃ s ∈ sents, pyStrip s ≠ [] ∧ pyStrip s = l := by
  simp only [keptLines, List.mem_filterMap]
  constructor
  · rintro ⟨s, hs, hf⟩
    by_cases h : pyStrip s = []
    · simp [h] at hf
    · exact ⟨s, hs, h, by simpa [h] using hf⟩
  · rintro ⟨s, hs, hne, rfl⟩
    exact ⟨s, hs, by simp [hne]⟩

lemma keptLines_not_nil {sents : List Str} {l : Str}
    (hl : l ∈ keptLines sents) : l ≠ [] := by
  obtain ⟨s, _, hne, rfl⟩ := mem_keptLines.mp hl
  exact hne

lemma count_nil_keptLines (sents : List Str) :
    (keptLines sents).count ([] : Str) = 0 := by
  rw [List.count_eq_zero]
  intro h
  exact keptLines_not_nil h rfl

lemma count_nil_docBlock (sents : List Str) :
    (docBlock sents).count ([] : Str) = 1 := by
  simp [docBlock, List.count_append, count_nil_keptLines]

lemma count_nil_mainOutput (pipe : Str → List Str) (docs : List Str) :
    (mainOutput pipe docs).count ([] : Str) = docs.length := by
  induction docs with
  | nil => simp [mainOutput]
  | cons d ds ih =>
    simp only [mainOutput, List.flatMap_cons, List.count_append,
      List.length_cons] at ih ⊢
    rw [count_nil_docBlock, ih]
    omega

lemma sumOnes_eq_length (lines : List Str) : sumOnes lines = lines.length := by
  induction lines with
  | nil => rfl
  | cons x xs ih => simp [sumOnes, List.map_cons, List.sum_cons] at ih ⊢; omega

/-! ## Claims -/

/-- C1: for `N` input lines the output is exactly the concatenation, in
input order, of one block per document — the kept sentence lines followed by
exactly one blank line — so it contains exactly `N` blank lines, one
terminating each block, even for documents with zero kept sentences; and the
output is the same for all `--buffer-size` and `--n-process` settings. -/
theorem output_has_one_block_per_line (pipe : Str → List Str)
    (docs : List Str) (b₁ b₂ : Option Int) (n₁ n₂ : Int) :
    mainRunOutput pipe b₁ n₁ docs
        = docs.flatMap (fun d => keptLines (pipe d) ++ [[]]) ∧
    (mainRunOutput pipe b₁ n₁ docs).count ([] : Str) = docs.length ∧
    mainRunOutput pipe b₁ n₁ docs = mainRunOutput pipe b₂ n₂ docs := by
  refine ⟨rfl, ?_, rfl⟩
  exact count_nil_mainOutput pipe docs

/-- C2: every non-blank output line is the stripped text of some sentence of
some input document and that stripped text is non-empty; and the kept lines
of a document are exactly the stripped texts of its sentences whose stripped
text is non-empty, so empty-after-strip sentences produce no line. -/
theorem output_lines_are_stripped_sentences (pipe : Str → List Str)
    (docs : List Str) :
    (∀ l ∈ mainOutput pipe docs, l ≠ [] →
      ∃ d ∈ docs, ∃ s ∈ pipe d, l = pyStrip s ∧ pyStrip s ≠ []) ∧
    (∀ sents : List Str,
      keptLines sents
        = (sents.filter fun s => pyStrip s ≠ []).map pyStrip) := by
  constructor
  · intro l hl hne
    simp only [mainOutput, List.mem_flatMap] at hl
    obtain ⟨d, hd, hbl⟩ := hl
    rcases List.mem_append.mp hbl with hk | hblank
    · obtain ⟨s, hs, hsne, rfl⟩ := mem_keptLines.mp hk
      exact ⟨d, hd, s, hs, rfl, hsne⟩
    · simp only [List.mem_singleton] at hblank
      exact absurd hblank hne
  · intro sents
    induction sents with
    | nil => rfl
    | cons s ss ih =>
      by_cases h : pyStrip s = [] <;>
        simp [keptLines, List.filterMap_cons, List.filter_cons, h] at ih ⊢ <;>
        exact ih

/-- Witness for C2 at a concrete run: pipeline that splits on `'.'`
boundaries modelled as identity on one two-sentence document. -/
theorem output_lines_are_stripped_sentences_witness :
    ∃ d ∈ [strLit " a. "], ∃ s ∈ [d],
      strLit "a." = pyStrip s ∧ pyStrip s ≠ [] :=
  (output_lines_are_stripped_sentences (fun d => [d]) [strLit " a. "]).1
    (strLit "a.") (by decide) (by decide)

/-- C3: whatever the outcome of the body (normal completion or a raised
exception), one `with smart_open(path) as file:` execution closes the opened
file exactly once when `path` names a real file, and closes nothing when
`path` is `"-"`. -/
theorem smart_open_closes_exactly_once (fs : FS) (path : Str) (o : Outcome) :
    (path ≠ stdinToken → (∃ c, fs path = some c) →
      (smart_open_events fs path o).count (.closeF path) = 1) ∧
    (path = stdinToken → smart_open_events fs path o = []) := by
  constructor
  · rintro hp ⟨c, hc⟩
    cases o <;>
      simp [smart_open_events, hp, hc, List.count_cons, List.count_nil]
  · intro hp
    cases o <;> simp [smart_open_events, hp]

/-- Witness for C3 at a concrete one-file filesystem, with a raising body. -/
theorem smart_open_closes_exactly_once_witness :
    (smart_open_events (fun p => if p = strLit "f" then some [] else none)
        (strLit "f") .raised).count (.closeF (strLit "f")) = 1 :=
  (smart_open_closes_exactly_once
      (fun p => if p = strLit "f" then some [] else none) (strLit "f")
      .raised).1 (by decide) ⟨[], by decide⟩

/-- C10: for path `"-"`, `smart_open` yields `sys.stdin` exactly when the
mode is `None`, `""`, or contains `'r'` (so for the default mode `"r"`), and
`sys.stdout` for every other mode; and nothing is closed on exit either
way. -/
theorem smart_open_dash_stream_selection (fs : FS) (mode : Option Str)
    (o : Outcome) :
    (smart_open_stream fs stdinToken mode = some (.std .stdin) ↔
      (mode = none ∨ mode = some [] ∨ ∃ m, mode = some m ∧ 'r' ∈ m)) ∧
    (smart_open_stream fs stdinToken mode = some (.std .stdin) ∨
      smart_open_stream fs stdinToken mode = some (.std .stdout)) ∧
    smart_open_stream fs stdinToken (some (strLit "r")) = some (.std .stdin) ∧
    smart_open_events fs stdinToken o = [] := by
  refine ⟨?_, ?_, ?_, ?_⟩
  · cases mode with
    | none => simp [smart_open_stream, smartOpenStdStream]
    | some m =>
      by_cases hm : m = [] <;> by_cases hr : 'r' ∈ m <;>
        simp [smart_open_stream, smartOpenStdStream, hm, hr]
  · cases mode with
    | none => simp [smart_open_stream, smartOpenStdStream]
    | some m =>
      by_cases hm : m = [] <;> by_cases hr : 'r' ∈ m <;>
        simp [smart_open_stream, smartOpenStdStream, hm, hr]
  · simp [smart_open_stream, smartOpenStdStream, strLit]
  · cases o <;> simp [smart_open_events]

/-- C6: `get_file_line_count` returns `None` for `"-"` without reading
anything, returns the exact line count of a real file through its own fresh
handle, and in every case hands back the rest of the program's handles
untouched. -/
theorem get_file_line_count_contract (fs : FS) (path : Str)
    (others : List Handle) :
    (path = stdinToken →
      get_file_line_count fs path others = (.ok none, others)) ∧
    (∀ lines, path ≠ stdinToken → fs path = some lines →
      get_file_line_count fs path others = (.ok (some lines.length), others)) ∧
    (get_file_line_count fs path others).2 = others := by
  refine ⟨fun hp => by simp [get_file_line_count, hp], ?_, ?_⟩
  · intro lines hp hl
    simp [get_file_line_count, hp, hl, readAllCount, sumOnes_eq_length]
  · by_cases hp : path = stdinToken
    · simp [get_file_line_count, hp]
    · cases hl : fs path <;> simp [get_file_line_count, hp, hl]

/-- Witness for C6 on a concrete two-line file. -/
theorem get_file_line_count_contract_witness :
    get_file_line_count
        (fun p => if p = strLit "f" then some [strLit "x", []] else none)
        (strLit "f") [] = (.ok (some 2), []) :=
  (get_file_line_count_contract
      (fun p => if p = strLit "f" then some [strLit "x", []] else none)
      (strLit "f") []).2.1 [strLit "x", []] (by decide) (by decide)

/-- C7: with the same segmentation function, reading the documents from a
real file and reading them from standard input print the same lines; only
the progress total differs (the file's line count vs. unknown). -/
theorem stdin_and_file_give_same_output (pipe : Str → List Str) (fs : FS)
    (docs : List Str) (path : Str) (buffer_size : Option Int)
    (n_process : Int) (hp : path ≠ stdinToken) (hfs : fs path = some docs) :
    mainRun pipe fs docs path buffer_size n_process
        = some (mainOutput pipe docs, some docs.length) ∧
    mainRun pipe fs docs stdinToken buffer_size n_process
        = some (mainOutput pipe docs, none) := by
  constructor
  · simp [mainRun, get_file_line_count, hp, hfs, readAllCount,
      sumOnes_eq_length, inputLinesFor, mainRunOutput]
  · simp [mainRun, get_file_line_count, inputLinesFor, mainRunOutput]

/-- Witness for C7 on a concrete one-line file. -/
theorem stdin_and_file_give_same_output_witness :
    mainRun (fun d => [d])
        (fun p => if p = strLit "f" then some [strLit "x"] else none)
        [strLit "x"] (strLit "f") none 1
      = some (mainOutput (fun d => [d]) [strLit "x"], some 1) :=
  (stdin_and_file_give_same_output (fun d => [d])
      (fun p => if p = strLit "f" then some [strLit "x"] else none)
      [strLit "x"] (strLit "f") none 1 (by decide) (by decide)).1

/-- C4: the effective process count is the explicit `--n-process` value
whenever that value is not `-1`; with `-1` it is `1` when the resolved
device is GPU (`require`, or `prefer` with a GPU available) and the number
of processor cores when the resolved device is CPU (`no`, or `prefer`
without a GPU). -/
theorem n_process_selection (n_process : Int) (cpu_count : Nat)
    (gpuAvailable : Bool) :
    (∀ use_gpu : Bool, n_process ≠ -1 →
      effective_n_process n_process use_gpu cpu_count = n_process) ∧
    (∀ use_gpu : Bool,
      resolve_use_gpu (strLit "require") gpuAvailable = .ok use_gpu →
        use_gpu = true ∧ effective_n_process (-1) use_gpu cpu_count = 1) ∧
    (resolve_use_gpu (strLit "prefer") gpuAvailable = .ok gpuAvailable ∧
      (gpuAvailable = true →
        effective_n_process (-1) gpuAvailable cpu_count = 1) ∧
      (gpuAvailable = false →
        effective_n_process (-1) gpuAvailable cpu_count = (cpu_count : Int))) ∧
    (resolve_use_gpu (strLit "no") gpuAvailable = .ok false ∧
      effective_n_process (-1) false cpu_count = (cpu_count : Int)) := by
  refine ⟨?_, ?_, ⟨?_, ?_, ?_⟩, ?_, ?_⟩
  · intro u hn
    simp [effective_n_process, hn]
  · intro u h
    cases gpuAvailable
    · rw [show resolve_use_gpu (strLit "require") false
          = .error .requireGpuFailed from by decide] at h
      exact absurd h (by simp)
    · rw [show resolve_use_gpu (strLit "require") true = .ok true from by
          decide] at h
      cases h
      exact ⟨rfl, by simp [effective_n_process]⟩
  · cases gpuAvailable <;> decide
  · intro hg
    subst hg
    simp [effective_n_process]
  · intro hg
    subst hg
    simp [effective_n_process]
  · cases gpuAvailable <;> decide
  · simp [effective_n_process]

/-- Witness for C4: explicit count 4 is kept; auto on CPU picks all 8
cores; auto on required GPU picks 1. -/
theorem n_process_selection_witness :
    effective_n_process 4 true 8 = 4 ∧
    effective_n_process (-1) false 8 = 8 ∧
    (true = true ∧ effective_n_process (-1) true 8 = 1) :=
  ⟨(n_process_selection 4 8 true).1 true (by decide),
    (n_process_selection (-1) 8 false).2.2.2.2,
    (n_process_selection (-1) 8 true).2.1 true (by decide)⟩

/-- C8: for any `use_gpu` value accepted by `parse_args` (so inside the
`choices` list), the final `else` branch of `main`'s dispatch — the
`raise ValueError(f"Unknown value for --use-gpu: ...")` — cannot be
reached, whatever the GPU availability. -/
theorem unknown_use_gpu_branch_unreachable (use_gpu : Str)
    (h : check_use_gpu_choice use_gpu = .ok use_gpu) (gpuAvailable : Bool) :
    resolve_use_gpu use_gpu gpuAvailable ≠ .error .valueErr := by
  have hmem : use_gpu ∈ use_gpu_choices := by
    by_cases hm : use_gpu ∈ use_gpu_choices
    · exact hm
    · simp [check_use_gpu_choice, hm] at h
  simp only [use_gpu_choices, List.mem_cons, List.mem_singleton,
    List.not_mem_nil, or_false] at hmem
  rcases hmem with rfl | rfl | rfl <;> cases gpuAvailable <;> decide

/-- Witness for C8 at the accepted value `prefer` with no GPU. -/
theorem unknown_use_gpu_branch_unreachable_witness :
    resolve_use_gpu (strLit "prefer") false ≠ .error .valueErr :=
  unknown_use_gpu_branch_unreachable (strLit "prefer") (by decide) false

/-- C5: a `--use-gpu` value outside `choices` makes the run end in the
argparse usage exit with the non-zero status 2 and zero input lines read —
before any file or standard input is touched; a value inside `choices`
never ends in the usage exit. -/
theorem use_gpu_outside_choices_exits_before_reading
    (pipe : Str → List Str) (fs : FS) (stdinLines : List Str) (path : Str)
    (use_gpu : Str) (gpuAvailable : Bool) (cpu_count : Nat)
    (buffer_size : Option Int) (n_process : Int) :
    (use_gpu ∉ use_gpu_choices →
      program_run pipe fs stdinLines path use_gpu gpuAvailable cpu_count
          buffer_size n_process = (.usageExit 2, 0) ∧ (2 : Nat) ≠ 0) ∧
    (use_gpu ∈ use_gpu_choices →
      ∀ code, (program_run pipe fs stdinLines path use_gpu gpuAvailable
          cpu_count buffer_size n_process).1 ≠ .usageExit code) := by
  constructor
  · intro hm
    exact ⟨by simp [program_run, check_use_gpu_choice, hm], by decide⟩
  · intro hm code
    simp only [program_run, check_use_gpu_choice, if_pos hm]
    split
    · simp
    · split
      · simp
      · simp
      · split <;> simp

/-- Witness for C5: the rejected value `gpu` and the accepted value `no`. -/
theorem use_gpu_outside_choices_exits_before_reading_witness :
    program_run (fun d => [d]) (fun _ => none) [] stdinToken (strLit "gpu")
        false 4 none (-1) = (.usageExit 2, 0) ∧
    (program_run (fun d => [d]) (fun _ => none) [] stdinToken (strLit "no")
        false 4 none (-1)).1 ≠ .usageExit 2 :=
  ⟨((use_gpu_outside_choices_exits_before_reading (fun d => [d])
      (fun _ => none) [] stdinToken (strLit "gpu") false 4 none (-1)).1
      (by decide)).1,
    (use_gpu_outside_choices_exits_before_reading (fun d => [d])
      (fun _ => none) [] stdinToken (strLit "no") false 4 none (-1)).2
      (by decide) 2⟩

lemma action_not_ignored_iff (action : Option Str) :
    action_not_ignored action = true ↔
      ∀ a, action = some a → a ∉ action_defaults_to_ignore := by
  cases action <;> simp [action_not_ignored]

lemma _is_empty_default_false_iff (d : PyVal) :
    _is_empty_default d = false ↔
      (d ≠ .pynone ∧ d ≠ .pystr [] ∧ d ≠ .pylist [] ∧
        d ≠ .pytuple [] ∧ d ≠ .pyset []) := by
  cases d <;> simp [_is_empty_default, List.isEmpty_iff]

lemma default_suffix_ne (h tail : Str) :
    h ++ strLit " (default = " ++ tail ++ strLit ")" ≠ h := by
  intro he
  have hlen := congrArg List.length he
  simp only [List.length_append] at hlen
  have h12 : (strLit " (default = ").length = 12 := by decide
  omega

/-- C9: `add_argument` appends the suffix `" (default = <value>)"` to the
help text exactly when the action is none of `help`, `store_true`,
`store_false`, `store_const` and the default is neither `None` nor an empty
string, list, tuple or set; otherwise the help text is passed through
unchanged (so `0` and `False` are shown, `None` and `""` are not). -/
theorem add_argument_appends_default_iff (action : Option Str) (d : PyVal)
    (h : Str) :
    (add_argument_help action d (some h)
        = h ++ strLit " (default = " ++ pyStrOfVal d ++ strLit ")" ↔
      ((∀ a, action = some a → a ∉ action_defaults_to_ignore) ∧
        d ≠ .pynone ∧ d ≠ .pystr [] ∧ d ≠ .pylist [] ∧
        d ≠ .pytuple [] ∧ d ≠ .pyset [])) ∧
    (¬ ((∀ a, action = some a → a ∉ action_defaults_to_ignore) ∧
        d ≠ .pynone ∧ d ≠ .pystr [] ∧ d ≠ .pylist [] ∧
        d ≠ .pytuple [] ∧ d ≠ .pyset []) →
      add_argument_help action d (some h) = h) := by
  by_cases hc : action_not_ignored action && !(_is_empty_default d)
  · have hsplit := Bool.and_eq_true_iff.mp hc
    have hA := (action_not_ignored_iff action).mp hsplit.1
    have hD := (_is_empty_default_false_iff d).mp
      (Bool.not_eq_true' .. |>.mp hsplit.2)
    constructor
    · simp only [add_argument_help, if_pos hc, Option.getD_some]
      exact iff_of_true (by simp [List.append_assoc]) ⟨hA, hD⟩
    · intro hnot
      exact absurd ⟨hA, hD⟩ hnot
  · have hres : add_argument_help action d (some h) = h := by
      simp only [add_argument_help, if_neg hc, Option.getD_some]
    constructor
    · rw [hres]
      refine iff_of_false (fun he => default_suffix_ne h (pyStrOfVal d) he.symm)
        (fun hcond => ?_)
      have hA := (action_not_ignored_iff action).mpr hcond.1
      have hD := (_is_empty_default_false_iff d).mpr
        ⟨hcond.2.1, hcond.2.2.1, hcond.2.2.2.1, hcond.2.2.2.2.1,
          hcond.2.2.2.2.2⟩
      exact hc (by simp [hA, hD])
    · intro _
      exact hres

/-- Witness for C9: `--n-process` (int default `-1`) gets the suffix, the
bare `--encoding`-style `None` action keeps it for non-empty defaults, and
a `None` default or a `help` action passes the help text through. -/
theorem add_argument_appends_default_iff_witness :
    add_argument_help none (.pyint (-1)) (some (strLit "proc count"))
        = strLit "proc count" ++ strLit " (default = "
            ++ pyStrOfVal (.pyint (-1)) ++ strLit ")" ∧
    add_argument_help none .pynone (some (strLit "buffer"))
        = strLit "buffer" ∧
    add_argument_help (some (strLit "help")) (.pybool false)
        (some (strLit "usage")) = strLit "usage" :=
  ⟨(add_argument_appends_default_iff none (.pyint (-1))
      (strLit "proc count")).1.mpr (by simp),
    (add_argument_appends_default_iff none .pynone (strLit "buffer")).2
      (by simp),
    (add_argument_appends_default_iff (some (strLit "help")) (.pybool false)
      (strLit "usage")).2 (by simp [action_defaults_to_ignore])⟩
